import Mathlib

/-!
Shallow embedding of the live-session core of ASCHIP1/ASCHIP-APP
(src/hooks/useLiveSession.ts, with the data model from src/types.ts).

The embedding translates the React hook's mutable refs and state setters
into a pure state-transition semantics: each event handler becomes a
function from the session state (plus the event's data and the ambient
clock values it reads) to the next session state, together with the list
of externally visible actions it performs (transport sends, resource
acquisitions and releases).  Times are rationals, byte buffers are lists
of naturals below 256.
-/

namespace LiveSession

/-- Message roles, from the role field of ChatMessage in src/types.ts
(role is the string union of user and model). -/
inductive Role where
  | user
  | model
deriving DecidableEq, Repr

/-- The TeachingMode enum of src/types.ts. -/
inductive TeachingMode where
  | conversation
  | correction
  | explanation
  | idle
deriving DecidableEq, Repr

/-- The string value carried by each TeachingMode enum member in
src/types.ts. -/
def TeachingMode.str : TeachingMode → String
  | .conversation => "Conversation Mode"
  | .correction => "Correction Mode"
  | .explanation => "Explanation Mode"
  | .idle => "Ready to Start"

/-- The membership test Object.values(TeachingMode).includes(newMode) of
useLiveSession.ts line 158, returning the matching enum member: every one
of the four enum values (including Idle) is recognized. -/
def parseTeachingMode (s : String) : Option TeachingMode :=
  if s = "Conversation Mode" then some .conversation
  else if s = "Correction Mode" then some .correction
  else if s = "Explanation Mode" then some .explanation
  else if s = "Ready to Start" then some .idle
  else none

/-- ChatMessage of src/types.ts.  The Date timestamp is modelled as a
natural (milliseconds); the optional isFinal field is modelled as a Bool
since every constructed message sets it explicitly. -/
structure ChatMessage where
  id : String
  role : Role
  text : String
  timestamp : Nat
  isFinal : Bool
deriving DecidableEq, Repr

/-- JavaScript string truthiness applied to an optional transcription
text (serverContent.inputTranscription?.text and the output analogue):
absent or empty strings are falsy. -/
def strTruthy : Option String → Bool
  | none => false
  | some s => !(s == "")

/-- The fresh user entry pushed by the inputTx else-branch of
useLiveSession.ts lines 194-204: id is Date.now().toString() + a role
suffix, isFinal starts false. -/
def newUserEntry (now : Nat) (txt : String) : ChatMessage :=
  { id := toString now ++ "-user", role := .user, text := txt,
    timestamp := now, isFinal := false }

/-- The fresh model entry pushed by the outputTx else-branch of
useLiveSession.ts lines 213-224. -/
def newModelEntry (now : Nat) (txt : String) : ChatMessage :=
  { id := toString now ++ "-model", role := .model, text := txt,
    timestamp := now, isFinal := false }

/-- The guard lastMsg and lastMsg.role matches and not lastMsg.isFinal of
useLiveSession.ts lines 188 and 208: an undefined lastMsg (empty log)
fails the guard. -/
def lastOpenWithRole (prev : List ChatMessage) (r : Role) : Bool :=
  match prev.getLast? with
  | some m => m.role == r && m.isFinal == false
  | none => false

/-- The in-place concatenation newMsgs.slice(0,-1) concatenated with the
last message extended by txt (useLiveSession.ts lines 189-192 and
209-212). -/
def appendToLast (prev : List ChatMessage) (txt : String) : List ChatMessage :=
  match prev.getLast? with
  | some m => prev.dropLast ++ [{ m with text := m.text ++ txt }]
  | none => prev

/-- The transcription branch of onmessage, useLiveSession.ts lines
179-228.  The setMessages updater runs only when inputTx or outputTx is
truthy; the inputTx branch returns from the updater in both of its arms,
so the outputTx branch only runs when inputTx is falsy. -/
def handleTranscription (now : Nat) (inputTx outputTx : Option String)
    (prev : List ChatMessage) : List ChatMessage :=
  if strTruthy inputTx || strTruthy outputTx then
    if strTruthy inputTx then
      if lastOpenWithRole prev .user then
        appendToLast prev (inputTx.getD "")
      else
        prev ++ [newUserEntry now (inputTx.getD "")]
    else if strTruthy outputTx then
      if lastOpenWithRole prev .model then
        appendToLast prev (outputTx.getD "")
      else
        prev ++ [newModelEntry now (outputTx.getD "")]
    else
      prev
  else
    prev

/-- The serverContent.turnComplete branch of onmessage, useLiveSession.ts
lines 230-242: the last message, if open, is marked final. -/
def handleTurnComplete (prev : List ChatMessage) : List ChatMessage :=
  match prev.getLast? with
  | some m =>
      if m.isFinal == false then
        prev.dropLast ++ [{ m with isFinal := true }]
      else
        prev
  | none => prev

/-- The serverContent.interrupted transcript branch of onmessage,
useLiveSession.ts lines 244-256: an open model entry at the tail gets
the marker appended and is marked final. -/
def handleInterruptedTranscript (prev : List ChatMessage) : List ChatMessage :=
  match prev.getLast? with
  | some m =>
      if m.isFinal == false && m.role == .model then
        prev.dropLast ++ [{ m with isFinal := true, text := m.text ++ " ..." }]
      else
        prev
  | none => prev

/-- A decoded playable audio buffer: normalized samples tagged with a
sample rate. -/
structure AudioBuffer where
  samples : List ℚ
  sampleRate : Nat
deriving DecidableEq, Repr

/-- The Web Audio duration of a buffer: length divided by sample rate,
in seconds. -/
def AudioBuffer.duration (b : AudioBuffer) : ℚ :=
  (b.samples.length : ℚ) / (b.sampleRate : ℚ)

/-- Signed 16-bit little-endian interpretation of consecutive byte pairs. -/
def bytesToInt16 : List Nat → List Int
  | lo :: hi :: rest =>
      (let v : Int := (lo : Int) + 256 * (hi : Int)
       if 32768 ≤ v then v - 65536 else v) :: bytesToInt16 rest
  | _ => []

/-- Modelled from the spec: decodeAudioData lives in src/utils/audioUtils.ts,
which is absent from the repository snapshot.  Per spec section 4.2 it
interprets the bytes as signed 16-bit little-endian mono PCM, produces a
floating-point buffer normalized to the unit interval tagged with the
target sample rate, and fails (reported, not fatal) iff the byte length is
not a multiple of 2. -/
def decodeAudioData (bytes : List Nat) (sampleRate : Nat) :
    Except String AudioBuffer :=
  if bytes.length % 2 = 0 then
    .ok { samples := (bytesToInt16 bytes).map (fun v => (v : ℚ) / 32768),
          sampleRate := sampleRate }
  else
    .error "Invalid PCM data: byte length must be a multiple of 2"

/-- One scheduled AudioBufferSourceNode: its scheduled start time and
buffer duration, plus an identity used for membership in the scheduled
set (source nodes are compared by object identity in JS). -/
structure AudioSource where
  start : ℚ
  duration : ℚ
  sid : Nat
deriving DecidableEq, Repr

/-- The playback scheduler's mutable state: nextStartTimeRef, the
scheduledSourcesRef set (as an insertion-ordered list of distinct
sources), and the isSpeaking React state. -/
structure PlaybackState where
  nextStartTime : ℚ
  scheduledSources : List AudioSource
  isSpeaking : Bool
deriving DecidableEq, Repr

/-- The forEach loop of stopPlayback (useLiveSession.ts lines 73-75):
each in-flight source gets source.stop() inside try-catch, so a halt
failure on any source (stopOutcome returning an error) is swallowed and
iteration continues; the loop as a whole never propagates an exception,
also when the set is empty. -/
def stopAllSources (stopOutcome : AudioSource → Except String Unit)
    (sources : List AudioSource) : Except String Unit :=
  sources.foldl
    (fun acc src =>
      match acc with
      | .error e => .error e
      | .ok _ =>
          match stopOutcome src with
          | .error _ => .ok ()
          | .ok _ => .ok ())
    (.ok ())

/-- stopPlayback of useLiveSession.ts lines 72-79: best-effort halt of
every in-flight source (see stopAllSources for the swallowed failures),
clear the set, reset the cursor to zero, signal playback idle. -/
def stopPlayback (st : PlaybackState) : PlaybackState :=
  { nextStartTime := 0, scheduledSources := [], isSpeaking := false }

/-- An inbound audio payload together with the ambient values the handler
reads: the output context's currentTime at arrival and the identity of
the source node that would be created for it. -/
structure AudioEvent where
  now : ℚ
  bytes : List Nat
  sid : Nat
deriving DecidableEq, Repr

/-- The audio-output branch of onmessage, useLiveSession.ts lines
260-298: set isSpeaking true, snap the cursor forward to currentTime if
it is behind, then decode; on success schedule a source exactly at the
cursor, advance the cursor by the buffer's duration and add the source to
the in-flight set; on decode failure log and drop the payload (the state
keeps the snap and the speaking flag).  Returns the scheduled segment,
when one was produced, alongside the new state. -/
def handleAudio (ev : AudioEvent) (st : PlaybackState) :
    PlaybackState × Option AudioSource :=
  let st1 : PlaybackState := { st with isSpeaking := true }
  let st2 : PlaybackState :=
    if st1.nextStartTime < ev.now then { st1 with nextStartTime := ev.now }
    else st1
  match decodeAudioData ev.bytes 24000 with
  | .ok buf =>
      let src : AudioSource :=
        { start := st2.nextStartTime, duration := buf.duration, sid := ev.sid }
      ({ st2 with
          nextStartTime := st2.nextStartTime + buf.duration,
          scheduledSources := st2.scheduledSources ++ [src] },
       some src)
  | .error _ => (st2, none)

/-- The source.onended callback of useLiveSession.ts lines 289-294:
remove the source from the set and, when the set becomes empty, signal
playback idle. -/
def handleSourceEnded (sid : Nat) (st : PlaybackState) : PlaybackState :=
  let rest := st.scheduledSources.filter (fun s => s.sid ≠ sid)
  { st with
      scheduledSources := rest,
      isSpeaking := if rest.length = 0 then false else st.isSpeaking }

/-- A run of consecutive audio-payload arrivals with no intervening stop:
each event goes through handleAudio; the segments that got scheduled are
collected in order. -/
def runAudioEvents (evs : List AudioEvent) (st : PlaybackState) :
    PlaybackState × List AudioSource :=
  match evs with
  | [] => (st, [])
  | ev :: rest =>
      let r := handleAudio ev st
      let r2 := runAudioEvents rest r.1
      (r2.1, r.2.toList ++ r2.2)

/-- One entry of message.toolCall.functionCalls: its id, name, and the
mode argument (fc.args as any).mode, absent when the args carry no mode. -/
structure FunctionCall where
  id : String
  name : String
  argsMode : Option String
deriving DecidableEq, Repr

/-- A tool-result acknowledgment sent via session.sendToolResponse
(useLiveSession.ts lines 164-170). -/
structure ToolResponse where
  id : String
  name : String
  result : String
deriving DecidableEq, Repr

/-- The body of the functionCalls loop in onmessage, useLiveSession.ts
lines 155-173: a call naming setTeachingMode applies the mode when the
string is one of the TeachingMode enum values (otherwise leaves the mode
unchanged) and always sends exactly one tool response; a call with any
other name is ignored and gets no response. -/
def handleFunctionCall (fc : FunctionCall) (mode : TeachingMode) :
    TeachingMode × List ToolResponse :=
  if fc.name = "setTeachingMode" then
    let mode1 :=
      match fc.argsMode with
      | some s =>
          match parseTeachingMode s with
          | some m => m
          | none => mode
      | none => mode
    (mode1, [{ id := fc.id, name := fc.name, result := "Mode updated" }])
  else
    (mode, [])

/-- The whole functionCalls loop: calls are processed in order, each
response appended to the outbound sequence. -/
def handleToolCall (fcs : List FunctionCall) (mode : TeachingMode) :
    TeachingMode × List ToolResponse :=
  match fcs with
  | [] => (mode, [])
  | fc :: rest =>
      let r := handleFunctionCall fc mode
      let r2 := handleToolCall rest r.1
      (r2.1, r.2 ++ r2.2)

/-- The serverContent field of a LiveServerMessage, restricted to what
onmessage reads: the two transcription texts, the turnComplete and
interrupted flags, and the first model-turn part's inline audio data
(carried here already transport-decoded to bytes). -/
structure ServerContent where
  inputTranscription : Option String
  outputTranscription : Option String
  turnComplete : Bool
  interrupted : Bool
  modelTurnAudio : Option (List Nat)
deriving DecidableEq, Repr

/-- An inbound LiveServerMessage as read by onmessage. -/
structure ServerMessage where
  toolCall : Option (List FunctionCall)
  serverContent : Option ServerContent
deriving DecidableEq, Repr

/-- The nullable resource refs owned by the hook, each modelled by
whether the ref currently holds a resource: processorRef, inputSourceRef,
streamRef, inputContextRef, outputContextRef, sessionRef. -/
structure RefsState where
  processor : Bool
  inputSource : Bool
  stream : Bool
  inputContext : Bool
  outputContext : Bool
  session : Bool
deriving DecidableEq, Repr

/-- The full observable state of the hook: resource refs, playback
scheduler state (including the isSpeaking flag it owns), the transcript
log, the current teaching mode held by the mode observer, the error
message, the volume level, and the isConnected flag. -/
structure SessionState where
  refs : RefsState
  playback : PlaybackState
  messages : List ChatMessage
  mode : TeachingMode
  error : Option String
  volume : ℚ
  isConnected : Bool
deriving DecidableEq, Repr

/-- Ambient values read by one invocation of onmessage: the output
context's currentTime, Date.now(), and the identity of the source node a
scheduled segment would get. -/
structure MsgCtx where
  now : ℚ
  tNow : Nat
  sid : Nat
deriving DecidableEq, Repr

/-- JavaScript truthiness of the optional audio payload (base64Audio at
useLiveSession.ts line 260): absent data or an empty string (empty byte
buffer) is falsy. -/
def audioTruthy : Option (List Nat) → Bool
  | none => false
  | some bytes => !bytes.isEmpty

/-- The onmessage dispatcher, useLiveSession.ts lines 152-304, in source
order: tool calls, then the transcription update, then turnComplete, then
the interrupted transcript marker, then the audio-output branch (guarded
by a truthy payload and a live output context), and finally stopPlayback
when the message carries interrupted.  Returns the next state and the
tool responses sent on the transport. -/
def onmessage (ctx : MsgCtx) (msg : ServerMessage) (s : SessionState) :
    SessionState × List ToolResponse :=
  let toolRes :=
    match msg.toolCall with
    | some fcs => handleToolCall fcs s.mode
    | none => (s.mode, [])
  let s1 : SessionState := { s with mode := toolRes.1 }
  let s2 : SessionState :=
    match msg.serverContent with
    | some sc =>
        let m1 :=
          handleTranscription ctx.tNow sc.inputTranscription
            sc.outputTranscription s1.messages
        let m2 := if sc.turnComplete then handleTurnComplete m1 else m1
        let m3 := if sc.interrupted then handleInterruptedTranscript m2 else m2
        { s1 with messages := m3 }
    | none => s1
  let s3 : SessionState :=
    match msg.serverContent with
    | some sc =>
        if audioTruthy sc.modelTurnAudio && s2.refs.outputContext then
          { s2 with
              playback :=
                (handleAudio
                  { now := ctx.now, bytes := sc.modelTurnAudio.getD [],
                    sid := ctx.sid } s2.playback).1 }
        else s2
    | none => s2
  let s4 : SessionState :=
    match msg.serverContent with
    | some sc =>
        if sc.interrupted then { s3 with playback := stopPlayback s3.playback }
        else s3
    | none => s3
  (s4, toolRes.2)

/-- Externally visible actions performed by connect and by the teardown
path: resource releases in stopAudioProcessing and disconnect, and the
resource acquisitions and the network call of connect. -/
inductive ExtAction where
  | processorDisconnect
  | inputSourceDisconnect
  | trackStop
  | inputContextClose
  | sessionClose
  | outputContextClose
  | createInputContext
  | createOutputContext
  | getUserMedia
  | liveConnect
  | createProcessor
deriving DecidableEq, Repr

/-- stopAudioProcessing, useLiveSession.ts lines 53-70: each of the four
capture resources is released and its ref nulled only when the ref is
non-null; a never-acquired resource is skipped, not an error. -/
def stopAudioProcessing (r : RefsState) : RefsState × List ExtAction :=
  let a1 : List ExtAction := if r.processor then [.processorDisconnect] else []
  let a2 : List ExtAction := if r.inputSource then [.inputSourceDisconnect] else []
  let a3 : List ExtAction := if r.stream then [.trackStop] else []
  let a4 : List ExtAction := if r.inputContext then [.inputContextClose] else []
  ({ r with processor := false, inputSource := false, stream := false,
            inputContext := false },
   a1 ++ a2 ++ a3 ++ a4)

/-- disconnect, useLiveSession.ts lines 81-102: stopAudioProcessing, then
stopPlayback, then a fire-and-forget close of the session when the ref is
non-null (a close error is routed to console.error by the attached catch,
never raised), then close and null the output context when present, null
the session ref, set isConnected false, reset the observed mode to Idle,
and zero the volume.  The transcript log and the error message are left
untouched. -/
def disconnect (s : SessionState) : SessionState × List ExtAction :=
  let rA := stopAudioProcessing s.refs
  let pb := stopPlayback s.playback
  let aSession : List ExtAction := if rA.1.session then [.sessionClose] else []
  let aOut : List ExtAction := if rA.1.outputContext then [.outputContextClose] else []
  ({ s with
      refs := { rA.1 with outputContext := false, session := false },
      playback := pb,
      isConnected := false,
      mode := .idle,
      volume := 0 },
   rA.2 ++ aSession ++ aOut)

/-- The environment one connect call runs against: the resolved
process.env.API_KEY value (none when the access throws or the variable is
undefined; the code maps both to the empty string) and whether
getUserMedia resolves with a stream. -/
structure ConnectEnv where
  apiKey : Option String
  micAvailable : Bool
deriving DecidableEq, Repr

/-- The error message set by the catch-all of connect, useLiveSession.ts
line 360. -/
def connectFailureMsg : String :=
  "Failed to initialize session. API Key may be missing."

/-- connect, useLiveSession.ts lines 104-363: clear the error and the
transcript, resolve the API key (a missing key throws before any resource
is touched), create the two audio contexts, await getUserMedia, open the
live session and wire up the capture processor.  Any throw lands in the
catch at lines 358-362, which sets the failure message and calls
disconnect.  setIsConnected(true) happens only inside the onopen
callback, never during connect itself. -/
def connect (env : ConnectEnv) (s : SessionState) :
    SessionState × List ExtAction :=
  let s0 : SessionState := { s with error := none, messages := [] }
  let apiKey := env.apiKey.getD ""
  if apiKey = "" then
    let r := disconnect { s0 with error := some connectFailureMsg }
    (r.1, r.2)
  else
    let s1 : SessionState :=
      { s0 with
          refs := { s0.refs with inputContext := true, outputContext := true } }
    let acts1 : List ExtAction := [.createInputContext, .createOutputContext]
    if env.micAvailable then
      let s2 : SessionState := { s1 with refs := { s1.refs with stream := true } }
      let refs3 : RefsState :=
        { s2.refs with session := true, inputSource := true, processor := true }
      let s3 : SessionState := { s2 with refs := refs3 }
      (s3, acts1 ++ [.getUserMedia, .liveConnect, .createProcessor])
    else
      let r := disconnect { s1 with error := some connectFailureMsg }
      (r.1, acts1 ++ [.getUserMedia] ++ r.2)

/-! Helper lemmas shared by the claim theorems. -/

lemma lastOpenWithRole_concat (pre : List ChatMessage) (lm : ChatMessage)
    (r : Role) :
    lastOpenWithRole (pre ++ [lm]) r = (lm.role == r && lm.isFinal == false) := by
  simp [lastOpenWithRole, List.getLast?_concat]

lemma appendToLast_concat (pre : List ChatMessage) (lm : ChatMessage)
    (t : String) :
    appendToLast (pre ++ [lm]) t = pre ++ [{ lm with text := lm.text ++ t }] := by
  simp [appendToLast, List.getLast?_concat, List.dropLast_concat]

lemma stopAllSources_ok (f : AudioSource → Except String Unit)
    (l : List AudioSource) : stopAllSources f l = .ok () := by
  induction l with
  | nil => rfl
  | cons x l ih =>
      have hstep :
          (fun (acc : Except String Unit) src =>
            match acc with
            | .error e => Except.error e
            | .ok _ =>
                match f src with
                | .error _ => Except.ok ()
                | .ok _ => Except.ok ()) (Except.ok ()) x = Except.ok () := by
        cases hfx : f x <;> simp [hfx]
      simpa [stopAllSources, hstep] using ih

lemma decodeAudioData_even (bytes : List Nat) (rate : Nat)
    (h : bytes.length % 2 = 0) :
    decodeAudioData bytes rate =
      .ok { samples := (bytesToInt16 bytes).map (fun v => (v : ℚ) / 32768),
            sampleRate := rate } := by
  simp [decodeAudioData, h]

lemma decodeAudioData_odd (bytes : List Nat) (rate : Nat)
    (h : bytes.length % 2 = 1) :
    decodeAudioData bytes rate =
      .error "Invalid PCM data: byte length must be a multiple of 2" := by
  simp [decodeAudioData, h]

lemma AudioBuffer.duration_nonneg (b : AudioBuffer) : 0 ≤ b.duration := by
  unfold AudioBuffer.duration
  positivity

/-- The per-enqueue facts for a well-formed payload: a segment is
produced; it starts exactly at the snapped cursor; its duration is
nonnegative; the cursor advances to start plus duration; the snapped
start is at least the previous cursor. -/
lemma handleAudio_even (ev : AudioEvent) (st : PlaybackState)
    (h : ev.bytes.length % 2 = 0) :
    ∃ seg : AudioSource,
      (handleAudio ev st).2 = some seg ∧
      seg.start =
        (if st.nextStartTime < ev.now then ev.now else st.nextStartTime) ∧
      0 ≤ seg.duration ∧
      (handleAudio ev st).1.nextStartTime = seg.start + seg.duration ∧
      st.nextStartTime ≤ seg.start := by
  have hd := decodeAudioData_even ev.bytes 24000 h
  by_cases hlt : st.nextStartTime < ev.now
  · refine ⟨{ start := ev.now,
              duration := AudioBuffer.duration
                { samples := (bytesToInt16 ev.bytes).map (fun v => (v : ℚ) / 32768),
                  sampleRate := 24000 },
              sid := ev.sid }, ?_, ?_, ?_, ?_, ?_⟩
    · simp [handleAudio, hd, hlt]
    · simp [hlt]
    · exact AudioBuffer.duration_nonneg _
    · simp [handleAudio, hd, hlt]
    · exact le_of_lt hlt
  · refine ⟨{ start := st.nextStartTime,
              duration := AudioBuffer.duration
                { samples := (bytesToInt16 ev.bytes).map (fun v => (v : ℚ) / 32768),
                  sampleRate := 24000 },
              sid := ev.sid }, ?_, ?_, ?_, ?_, ?_⟩
    · simp [handleAudio, hd, hlt]
    · simp [hlt]
    · exact AudioBuffer.duration_nonneg _
    · simp [handleAudio, hd, hlt]
    · exact le_refl _

/-- Gap-respecting ordering between two scheduled segments: the second
starts no earlier than the first, and no earlier than the first's start
plus the first's duration. -/
def startsAfterEnd (a b : AudioSource) : Prop :=
  a.start ≤ b.start ∧ a.start + a.duration ≤ b.start

instance : DecidableRel startsAfterEnd := fun a b =>
  inferInstanceAs (Decidable (_ ∧ _))

lemma runAudioEvents_chain (evs : List AudioEvent) :
    ∀ st : PlaybackState, (∀ ev ∈ evs, ev.bytes.length % 2 = 0) →
      List.Chain' startsAfterEnd (runAudioEvents evs st).2 ∧
      (∀ seg ∈ (runAudioEvents evs st).2.head?, st.nextStartTime ≤ seg.start) := by
  induction evs with
  | nil =>
      intro st h
      simp [runAudioEvents]
  | cons ev rest ih =>
      intro st h
      have hev : ev.bytes.length % 2 = 0 := h ev (by simp)
      have hrest : ∀ e ∈ rest, e.bytes.length % 2 = 0 :=
        fun e he => h e (by simp [he])
      obtain ⟨seg, h2, hstart, hdur, hnext, hge⟩ := handleAudio_even ev st hev
      obtain ⟨ihchain, ihhead⟩ := ih (handleAudio ev st).1 hrest
      have hrun : (runAudioEvents (ev :: rest) st).2
          = seg :: (runAudioEvents rest (handleAudio ev st).1).2 := by
        simp [runAudioEvents, h2]
      rw [hrun]
      constructor
      · refine List.chain'_cons'.mpr ⟨?_, ihchain⟩
        intro y hy
        have h1 : (handleAudio ev st).1.nextStartTime ≤ y.start := ihhead y hy
        rw [hnext] at h1
        exact ⟨le_trans (le_add_of_nonneg_right hdur) h1, h1⟩
      · intro s hs
        simp only [List.head?] at hs
        simp only [Option.mem_def, Option.some.injEq] at hs
        subst hs
        exact hge

/-- C1: within one connected session, for every sequence of
audio-payload enqueue operations with no intervening stop, each newly
decoded segment is scheduled to start exactly at the playback cursor
after the cursor is first snapped forward to the output clock's current
time if it is behind, the cursor then advances by the segment's duration,
and consequently the scheduled start times are non-decreasing with each
segment's start at least the previous segment's start plus the previous
segment's duration. -/
theorem c1_playback_monotonic :
    (∀ (ev : AudioEvent) (st : PlaybackState), ev.bytes.length % 2 = 0 →
      ∃ seg : AudioSource,
        (handleAudio ev st).2 = some seg ∧
        seg.start =
          (if st.nextStartTime < ev.now then ev.now else st.nextStartTime) ∧
        (handleAudio ev st).1.nextStartTime = seg.start + seg.duration)
    ∧ (∀ (evs : List AudioEvent) (st : PlaybackState),
        (∀ ev ∈ evs, ev.bytes.length % 2 = 0) →
        List.Chain' startsAfterEnd (runAudioEvents evs st).2) := by
  constructor
  · intro ev st h
    obtain ⟨seg, h2, hstart, _, hnext, _⟩ := handleAudio_even ev st h
    exact ⟨seg, h2, hstart, hnext⟩
  · intro evs st h
    exact (runAudioEvents_chain evs st h).1

/-- Witness for C1 at a concrete two-event run. -/
theorem c1_playback_monotonic_witness :
    List.Chain' startsAfterEnd
      (runAudioEvents
        [{ now := 0, bytes := [0, 0, 0, 0], sid := 0 },
         { now := (1 : ℚ)/10, bytes := [0, 0], sid := 1 }]
        { nextStartTime := 0, scheduledSources := [], isSpeaking := false }).2 :=
  c1_playback_monotonic.2 _ _ (by decide)

/-- C2: an interrupted signal arriving while the last transcript entry is
an open model message appends the marker to that entry's text and marks
it final; the triggered playback stop then empties the in-flight set,
resets the cursor to zero and signals playback idle, while the halt of
each in-flight segment swallows failures and the whole stop raises no
exception even with zero segments in flight (stopAllSources always
returns ok, whatever each halt's outcome and however many segments there
are). -/
theorem c2_interrupted_stop :
    (∀ (ctx : MsgCtx) (s : SessionState) (pre : List ChatMessage)
        (lm : ChatMessage),
      s.messages = pre ++ [lm] → lm.isFinal = false → lm.role = Role.model →
      (onmessage ctx
        { toolCall := none,
          serverContent := some
            { inputTranscription := none, outputTranscription := none,
              turnComplete := false, interrupted := true,
              modelTurnAudio := none } } s).1.messages
          = pre ++ [{ lm with isFinal := true, text := lm.text ++ " ..." }]
        ∧ (onmessage ctx
            { toolCall := none,
              serverContent := some
                { inputTranscription := none, outputTranscription := none,
                  turnComplete := false, interrupted := true,
                  modelTurnAudio := none } } s).1.playback
          = { nextStartTime := 0, scheduledSources := [], isSpeaking := false })
    ∧ (∀ (f : AudioSource → Except String Unit) (l : List AudioSource),
        stopAllSources f l = Except.ok ()) := by
  constructor
  · intro ctx s pre lm hmsgs hfin hrole
    constructor
    · simp [onmessage, handleTranscription, strTruthy, handleTurnComplete,
        handleInterruptedTranscript, audioTruthy, stopPlayback, hmsgs,
        List.getLast?_concat, List.dropLast_concat, hfin, hrole]
    · simp [onmessage, handleTranscription, strTruthy, handleTurnComplete,
        handleInterruptedTranscript, audioTruthy, stopPlayback, hmsgs,
        List.getLast?_concat, List.dropLast_concat, hfin, hrole]
  · exact stopAllSources_ok

/-- Witness for C2: the spec's interruption scenario, an open model entry
reading Let me expl while nothing is in flight. -/
theorem c2_interrupted_stop_witness :
    (onmessage { now := 0, tNow := 9, sid := 0 }
      { toolCall := none,
        serverContent := some
          { inputTranscription := none, outputTranscription := none,
            turnComplete := false, interrupted := true,
            modelTurnAudio := none } }
      { refs := { processor := true, inputSource := true, stream := true,
                  inputContext := true, outputContext := true, session := true },
        playback := { nextStartTime := 2, scheduledSources := [],
                      isSpeaking := true },
        messages := [{ id := "5-model", role := .model, text := "Let me expl",
                       timestamp := 5, isFinal := false }],
        mode := .conversation, error := none, volume := 0,
        isConnected := true }).1.messages
      = [{ id := "5-model", role := .model, text := "Let me expl ...",
           timestamp := 5, isFinal := true }] := by
  have h := (c2_interrupted_stop.1 { now := 0, tNow := 9, sid := 0 }
    { refs := { processor := true, inputSource := true, stream := true,
                inputContext := true, outputContext := true, session := true },
      playback := { nextStartTime := 2, scheduledSources := [],
                    isSpeaking := true },
      messages := [{ id := "5-model", role := .model, text := "Let me expl",
                     timestamp := 5, isFinal := false }],
      mode := .conversation, error := none, volume := 0,
      isConnected := true }
    [] { id := "5-model", role := .model, text := "Let me expl",
         timestamp := 5, isFinal := false } (by simp) rfl rfl).1
  simpa using h

/-- C3: a delta whose role equals the role of an open last entry is
appended to that entry's text; a delta whose role differs from the last
entry's role, or arriving when the last entry is final or the log is
empty, opens a new open entry; turn-complete marks an open last entry
final; and the spec's four-event scenario yields exactly the log of a
final user entry reading Hi there followed by an open model entry reading
the greeting. -/
theorem c3_transcript_merge :
    (∀ (now : Nat) (d : String) (o : Option String) (pre : List ChatMessage)
        (lm : ChatMessage),
      d ≠ "" → lm.role = Role.user → lm.isFinal = false →
      handleTranscription now (some d) o (pre ++ [lm])
        = pre ++ [{ lm with text := lm.text ++ d }])
    ∧ (∀ (now : Nat) (d : String) (pre : List ChatMessage) (lm : ChatMessage),
      d ≠ "" → lm.role = Role.model → lm.isFinal = false →
      handleTranscription now none (some d) (pre ++ [lm])
        = pre ++ [{ lm with text := lm.text ++ d }])
    ∧ (∀ (now : Nat) (d : String) (pre : List ChatMessage) (lm : ChatMessage),
      d ≠ "" → (lm.role = Role.model ∨ lm.isFinal = true) →
      handleTranscription now (some d) none (pre ++ [lm])
        = (pre ++ [lm]) ++ [newUserEntry now d])
    ∧ (∀ (now : Nat) (d : String) (pre : List ChatMessage) (lm : ChatMessage),
      d ≠ "" → (lm.role = Role.user ∨ lm.isFinal = true) →
      handleTranscription now none (some d) (pre ++ [lm])
        = (pre ++ [lm]) ++ [newModelEntry now d])
    ∧ (∀ (now : Nat) (d : String), d ≠ "" →
      handleTranscription now (some d) none [] = [newUserEntry now d])
    ∧ (∀ (pre : List ChatMessage) (lm : ChatMessage), lm.isFinal = false →
      handleTurnComplete (pre ++ [lm]) = pre ++ [{ lm with isFinal := true }])
    ∧ handleTranscription 4 none (some "Hello!")
        (handleTurnComplete
          (handleTranscription 2 (some " there") none
            (handleTranscription 1 (some "Hi") none [])))
      = [{ id := "1-user", role := .user, text := "Hi there", timestamp := 1,
           isFinal := true },
         { id := "4-model", role := .model, text := "Hello!", timestamp := 4,
           isFinal := false }] := by
  refine ⟨?_, ?_, ?_, ?_, ?_, ?_, ?_⟩
  · intro now d o pre lm hd hrole hfin
    have hd2 : (d == "") = false := by simp [hd]
    simp [handleTranscription, strTruthy, hd2, lastOpenWithRole_concat,
      appendToLast_concat, hrole, hfin]
  · intro now d pre lm hd hrole hfin
    have hd2 : (d == "") = false := by simp [hd]
    simp [handleTranscription, strTruthy, hd2, lastOpenWithRole_concat,
      appendToLast_concat, hrole, hfin]
  · intro now d pre lm hd hcase
    have hd2 : (d == "") = false := by simp [hd]
    rcases hcase with hrole | hfin
    · simp [handleTranscription, strTruthy, hd2, lastOpenWithRole_concat, hrole]
    · simp [handleTranscription, strTruthy, hd2, lastOpenWithRole_concat, hfin]
  · intro now d pre lm hd hcase
    have hd2 : (d == "") = false := by simp [hd]
    rcases hcase with hrole | hfin
    · simp [handleTranscription, strTruthy, hd2, lastOpenWithRole_concat, hrole]
    · simp [handleTranscription, strTruthy, hd2, lastOpenWithRole_concat, hfin]
  · intro now d hd
    have hd2 : (d == "") = false := by simp [hd]
    simp [handleTranscription, strTruthy, hd2, lastOpenWithRole]
  · intro pre lm hfin
    simp [handleTurnComplete, List.getLast?_concat, List.dropLast_concat, hfin]
  · rfl

/-- Witness for C3: an open user tail entry absorbs a same-role delta. -/
theorem c3_transcript_merge_witness :
    handleTranscription 2 (some " there") none
      [{ id := "1-user", role := .user, text := "Hi", timestamp := 1,
         isFinal := false }]
      = [{ id := "1-user", role := .user, text := "Hi there", timestamp := 1,
           isFinal := false }] := by
  have h := c3_transcript_merge.1 2 " there" none []
    { id := "1-user", role := .user, text := "Hi", timestamp := 1,
      isFinal := false } (by decide) rfl rfl
  simpa using h

/-- C4: a tool invocation naming setTeachingMode applies the requested
mode and notifies the mode observer when the string matches a recognized
TeachingMode value, leaves the current mode unchanged otherwise, and in
both cases sends back exactly one tool-result acknowledgment per function
call naming the tool. -/
theorem c4_tool_ack :
    (∀ (fc : FunctionCall) (mode : TeachingMode) (s : String)
        (m : TeachingMode),
      fc.name = "setTeachingMode" → fc.argsMode = some s →
      parseTeachingMode s = some m →
      handleFunctionCall fc mode
        = (m, [{ id := fc.id, name := fc.name, result := "Mode updated" }]))
    ∧ (∀ (fc : FunctionCall) (mode : TeachingMode) (s : String),
      fc.name = "setTeachingMode" → fc.argsMode = some s →
      parseTeachingMode s = none →
      handleFunctionCall fc mode
        = (mode, [{ id := fc.id, name := fc.name, result := "Mode updated" }]))
    ∧ (∀ (fc : FunctionCall) (mode : TeachingMode),
      fc.name = "setTeachingMode" → (handleFunctionCall fc mode).2.length = 1)
    ∧ (∀ (fcs : List FunctionCall) (mode : TeachingMode),
      (handleToolCall fcs mode).2.length
        = (fcs.filter (fun fc => fc.name == "setTeachingMode")).length) := by
  refine ⟨?_, ?_, ?_, ?_⟩
  · intro fc mode s m hname hargs hparse
    simp [handleFunctionCall, hname, hargs, hparse]
  · intro fc mode s hname hargs hparse
    simp [handleFunctionCall, hname, hargs, hparse]
  · intro fc mode hname
    simp [handleFunctionCall, hname]
  · intro fcs mode
    induction fcs generalizing mode with
    | nil => simp [handleToolCall]
    | cons fc rest ih =>
        by_cases hname : fc.name = "setTeachingMode"
        · simp [handleToolCall, handleFunctionCall, hname, ih]
        · simp [handleToolCall, handleFunctionCall, hname, ih]

/-- Witness for C4: the spec's unrecognized-value scenario, a call with
mode Nonsense Mode leaves the mode unchanged yet acknowledges. -/
theorem c4_tool_ack_witness :
    handleFunctionCall
      { id := "7", name := "setTeachingMode", argsMode := some "Nonsense Mode" }
      .conversation
      = (.conversation,
         [{ id := "7", name := "setTeachingMode", result := "Mode updated" }]) :=
  c4_tool_ack.2.1 _ .conversation "Nonsense Mode" rfl rfl (by decide)

/-- C5: disconnect is idempotent: a second call produces exactly the
same end state and performs no further teardown actions (all handles are
already null and get skipped, so nothing is closed twice and nothing
raises); each call leaves the session disconnected, the mode reset to
Idle, the volume zeroed, playback stopped with an empty in-flight set,
and every resource ref released, while the transcript and the error
message are untouched. -/
theorem c5_disconnect_idempotent (s : SessionState) :
    disconnect (disconnect s).1 = ((disconnect s).1, [])
    ∧ (disconnect s).1.isConnected = false
    ∧ (disconnect s).1.mode = .idle
    ∧ (disconnect s).1.volume = 0
    ∧ (disconnect s).1.playback
      = { nextStartTime := 0, scheduledSources := [], isSpeaking := false }
    ∧ (disconnect s).1.refs
      = { processor := false, inputSource := false, stream := false,
          inputContext := false, outputContext := false, session := false }
    ∧ (disconnect s).1.messages = s.messages
    ∧ (disconnect s).1.error = s.error := by
  refine ⟨?_, ?_, ?_, ?_, ?_, ?_, ?_, ?_⟩ <;>
    simp [disconnect, stopAudioProcessing, stopPlayback]

/-- Witness for C5 at a fully populated connected state. -/
theorem c5_disconnect_idempotent_witness :
    disconnect
      (disconnect
        { refs := { processor := true, inputSource := true, stream := true,
                    inputContext := true, outputContext := true,
                    session := true },
          playback := { nextStartTime := 3,
                        scheduledSources := [{ start := 1, duration := 2,
                                               sid := 0 }],
                        isSpeaking := true },
          messages := [], mode := .correction, error := none, volume := 1,
          isConnected := true }).1
      = ((disconnect
          { refs := { processor := true, inputSource := true, stream := true,
                      inputContext := true, outputContext := true,
                      session := true },
            playback := { nextStartTime := 3,
                          scheduledSources := [{ start := 1, duration := 2,
                                                 sid := 0 }],
                          isSpeaking := true },
            messages := [], mode := .correction, error := none, volume := 1,
            isConnected := true }).1, []) :=
  (c5_disconnect_idempotent
    { refs := { processor := true, inputSource := true, stream := true,
                inputContext := true, outputContext := true, session := true },
      playback := { nextStartTime := 3,
                    scheduledSources := [{ start := 1, duration := 2,
                                           sid := 0 }],
                    isSpeaking := true },
      messages := [], mode := .correction, error := none, volume := 1,
      isConnected := true }).1

/-- A server message carrying only an inbound audio payload. -/
def audioOnlyMsg (bytes : List Nat) : ServerMessage :=
  { toolCall := none,
    serverContent := some
      { inputTranscription := none, outputTranscription := none,
        turnComplete := false, interrupted := false,
        modelTurnAudio := some bytes } }

lemma handleAudio_odd (ev : AudioEvent) (st : PlaybackState)
    (h : ev.bytes.length % 2 = 1) :
    (handleAudio ev st).1
      = { st with
            isSpeaking := true,
            nextStartTime :=
              if st.nextStartTime < ev.now then ev.now else st.nextStartTime }
    ∧ (handleAudio ev st).2 = none := by
  refine ⟨?_, ?_⟩
  · simp only [handleAudio, decodeAudioData_odd ev.bytes 24000 h]
    split <;> rfl
  · simp [handleAudio, decodeAudioData_odd ev.bytes 24000 h]

lemma handleAudio_even_length (ev : AudioEvent) (st : PlaybackState)
    (h : ev.bytes.length % 2 = 0) :
    (handleAudio ev st).1.scheduledSources.length
      = st.scheduledSources.length + 1 := by
  simp only [handleAudio, decodeAudioData_even ev.bytes 24000 h]
  split <;> simp

lemma onmessage_audioOnly (ctx : MsgCtx) (bytes : List Nat) (s : SessionState)
    (hb : bytes ≠ []) (hc : s.refs.outputContext = true) :
    onmessage ctx (audioOnlyMsg bytes) s
      = ({ s with
            playback :=
              (handleAudio { now := ctx.now, bytes := bytes, sid := ctx.sid }
                s.playback).1 }, []) := by
  simp [onmessage, audioOnlyMsg, handleTranscription, strTruthy, audioTruthy,
    hb, hc]

/-- C6: an inbound audio payload whose decoding fails is dropped with the
failure caught, the session stays connected with its refs, transcript and
in-flight segments untouched, and a subsequent well-formed payload is
still decoded and scheduled (the in-flight set grows by one). -/
theorem c6_malformed_audio (s : SessionState) (ctx1 ctx2 : MsgCtx)
    (bad good : List Nat) (hc : s.refs.outputContext = true)
    (hbad1 : bad ≠ []) (hbad2 : bad.length % 2 = 1)
    (hgood1 : good ≠ []) (hgood2 : good.length % 2 = 0) :
    (onmessage ctx1 (audioOnlyMsg bad) s).1.isConnected = s.isConnected
    ∧ (onmessage ctx1 (audioOnlyMsg bad) s).1.playback.scheduledSources
      = s.playback.scheduledSources
    ∧ (onmessage ctx1 (audioOnlyMsg bad) s).1.refs = s.refs
    ∧ (onmessage ctx1 (audioOnlyMsg bad) s).1.messages = s.messages
    ∧ (onmessage ctx2 (audioOnlyMsg good)
        (onmessage ctx1 (audioOnlyMsg bad) s).1).1.playback.scheduledSources.length
      = s.playback.scheduledSources.length + 1 := by
  have h1 := onmessage_audioOnly ctx1 bad s hbad1 hc
  have hod := handleAudio_odd { now := ctx1.now, bytes := bad, sid := ctx1.sid }
    s.playback hbad2
  have hc2 : (onmessage ctx1 (audioOnlyMsg bad) s).1.refs.outputContext = true := by
    rw [h1]; exact hc
  have h2 := onmessage_audioOnly ctx2 good
    (onmessage ctx1 (audioOnlyMsg bad) s).1 hgood1 hc2
  refine ⟨?_, ?_, ?_, ?_, ?_⟩
  · rw [h1]
  · rw [h1]; simp [hod.1]
  · rw [h1]
  · rw [h1]
  · rw [h2]
    simp only [h1]
    rw [handleAudio_even_length { now := ctx2.now, bytes := good, sid := ctx2.sid }
      _ hgood2, hod.1]

/-- Witness for C6: an odd three-byte payload followed by a well-formed
two-byte payload against a freshly connected state. -/
theorem c6_malformed_audio_witness :
    (onmessage { now := 1, tNow := 0, sid := 1 } (audioOnlyMsg [0, 0])
      (onmessage { now := 0, tNow := 0, sid := 0 } (audioOnlyMsg [7, 7, 7])
        { refs := { processor := true, inputSource := true, stream := true,
                    inputContext := true, outputContext := true,
                    session := true },
          playback := { nextStartTime := 0, scheduledSources := [],
                        isSpeaking := false },
          messages := [], mode := .conversation, error := none, volume := 0,
          isConnected := true }).1).1.playback.scheduledSources.length
      = 0 + 1 :=
  (c6_malformed_audio
    { refs := { processor := true, inputSource := true, stream := true,
                inputContext := true, outputContext := true, session := true },
      playback := { nextStartTime := 0, scheduledSources := [],
                    isSpeaking := false },
      messages := [], mode := .conversation, error := none, volume := 0,
      isConnected := true }
    { now := 0, tNow := 0, sid := 0 } { now := 1, tNow := 0, sid := 1 }
    [7, 7, 7] [0, 0] rfl (by decide) (by decide) (by decide)
    (by decide)).2.2.2.2

lemma disconnect_acts (s : SessionState) :
    (disconnect s).2
      = (if s.refs.processor then [ExtAction.processorDisconnect] else [])
          ++ (if s.refs.inputSource then [ExtAction.inputSourceDisconnect] else [])
          ++ (if s.refs.stream then [ExtAction.trackStop] else [])
          ++ (if s.refs.inputContext then [ExtAction.inputContextClose] else [])
          ++ (if s.refs.session then [ExtAction.sessionClose] else [])
          ++ (if s.refs.outputContext then [ExtAction.outputContextClose] else []) := by
  simp [disconnect, stopAudioProcessing]

lemma disconnect_acts_no_acquire (s : SessionState) :
    ExtAction.liveConnect ∉ (disconnect s).2
    ∧ ExtAction.getUserMedia ∉ (disconnect s).2
    ∧ ExtAction.createInputContext ∉ (disconnect s).2
    ∧ ExtAction.createOutputContext ∉ (disconnect s).2 := by
  refine ⟨?_, ?_, ?_, ?_⟩ <;>
    · rw [disconnect_acts]
      split_ifs <;> simp

/-- C7: connect with no service credential available sets the failure
message without attempting the network call, acquiring the microphone or
creating either audio context, and leaves the session disconnected with
every resource ref released. -/
theorem c7_missing_credential (env : ConnectEnv) (s : SessionState)
    (h : env.apiKey.getD "" = "") :
    (connect env s).1.isConnected = false
    ∧ (connect env s).1.error = some connectFailureMsg
    ∧ ExtAction.liveConnect ∉ (connect env s).2
    ∧ ExtAction.getUserMedia ∉ (connect env s).2
    ∧ ExtAction.createInputContext ∉ (connect env s).2
    ∧ ExtAction.createOutputContext ∉ (connect env s).2
    ∧ (connect env s).1.refs
      = { processor := false, inputSource := false, stream := false,
          inputContext := false, outputContext := false, session := false } := by
  have hbranch : connect env s
      = disconnect { s with error := some connectFailureMsg, messages := [] } := by
    simp [connect, h]
  refine ⟨?_, ?_, ?_, ?_, ?_, ?_, ?_⟩
  · rw [hbranch]; simp [disconnect, stopAudioProcessing, stopPlayback]
  · rw [hbranch]; simp [disconnect, stopAudioProcessing, stopPlayback]
  · rw [hbranch]; exact (disconnect_acts_no_acquire _).1
  · rw [hbranch]; exact (disconnect_acts_no_acquire _).2.1
  · rw [hbranch]; exact (disconnect_acts_no_acquire _).2.2.1
  · rw [hbranch]; exact (disconnect_acts_no_acquire _).2.2.2
  · rw [hbranch]; simp [disconnect, stopAudioProcessing, stopPlayback]

/-- Witness for C7: connect against an environment with no key and a
pristine state performs no network call. -/
theorem c7_missing_credential_witness :
    ExtAction.liveConnect ∉
      (connect { apiKey := none, micAvailable := true }
        { refs := { processor := false, inputSource := false, stream := false,
                    inputContext := false, outputContext := false,
                    session := false },
          playback := { nextStartTime := 0, scheduledSources := [],
                        isSpeaking := false },
          messages := [], mode := .idle, error := none, volume := 0,
          isConnected := false }).2 :=
  (c7_missing_credential { apiKey := none, micAvailable := true }
    { refs := { processor := false, inputSource := false, stream := false,
                inputContext := false, outputContext := false,
                session := false },
      playback := { nextStartTime := 0, scheduledSources := [],
                    isSpeaking := false },
      messages := [], mode := .idle, error := none, volume := 0,
      isConnected := false } rfl).2.2.1

/-- C8 as stated is false: on a microphone denial the connect attempt is
not aborted before any resource is committed; the two audio contexts are
created before getUserMedia is even attempted, as the action trace of a
denied connect shows (creations precede the failure, followed by the
error-path teardown closing them). -/
theorem c8_device_unavailable_counterexample :
    (connect { apiKey := some "k", micAvailable := false }
      { refs := { processor := false, inputSource := false, stream := false,
                  inputContext := false, outputContext := false,
                  session := false },
        playback := { nextStartTime := 0, scheduledSources := [],
                      isSpeaking := false },
        messages := [], mode := .idle, error := none, volume := 0,
        isConnected := false }).2
      = [ExtAction.createInputContext, ExtAction.createOutputContext,
         ExtAction.getUserMedia, ExtAction.inputContextClose,
         ExtAction.outputContextClose]
    ∧ (connect { apiKey := some "k", micAvailable := false }
        { refs := { processor := false, inputSource := false, stream := false,
                    inputContext := false, outputContext := false,
                    session := false },
          playback := { nextStartTime := 0, scheduledSources := [],
                        isSpeaking := false },
          messages := [], mode := .idle, error := none, volume := 0,
          isConnected := false }).1.error = some connectFailureMsg := by
  constructor <;> rfl

/-- C8 amended: on a microphone denial the connect attempt fails with the
non-fatal user-visible failure message and never opens the live session;
the two audio contexts are created before the microphone attempt, and the
error-path teardown then releases everything, so the session never
reaches connected and no resource remains held after the failure. -/
theorem c8_device_unavailable (env : ConnectEnv) (s : SessionState)
    (hk : env.apiKey.getD "" ≠ "") (hm : env.micAvailable = false) :
    (connect env s).1.isConnected = false
    ∧ (connect env s).1.error = some connectFailureMsg
    ∧ ExtAction.liveConnect ∉ (connect env s).2
    ∧ ExtAction.createInputContext ∈ (connect env s).2
    ∧ ExtAction.createOutputContext ∈ (connect env s).2
    ∧ (connect env s).1.refs
      = { processor := false, inputSource := false, stream := false,
          inputContext := false, outputContext := false, session := false } := by
  have hb : connect env s
      = ((disconnect
            { s with error := some connectFailureMsg, messages := [],
                     refs := { s.refs with inputContext := true, outputContext := true } }).1,
         [ExtAction.createInputContext, ExtAction.createOutputContext,
          ExtAction.getUserMedia]
           ++ (disconnect
                { s with error := some connectFailureMsg, messages := [],
                         refs := { s.refs with inputContext := true, outputContext := true } }).2) := by
    simp [connect, hk, hm]
  refine ⟨?_, ?_, ?_, ?_, ?_, ?_⟩
  · rw [hb]; simp [disconnect, stopAudioProcessing, stopPlayback]
  · rw [hb]; simp [disconnect, stopAudioProcessing, stopPlayback]
  · rw [hb]
    intro hmem
    rcases List.mem_append.mp hmem with h1 | h1
    · simp at h1
    · exact absurd h1 (disconnect_acts_no_acquire _).1
  · rw [hb]; simp
  · rw [hb]; simp
  · rw [hb]; simp [disconnect, stopAudioProcessing, stopPlayback]

/-- Witness for the amended C8: a denied microphone against a pristine
state with a key present. -/
theorem c8_device_unavailable_witness :
    (connect { apiKey := some "k", micAvailable := false }
      { refs := { processor := false, inputSource := false, stream := false,
                  inputContext := false, outputContext := false,
                  session := false },
        playback := { nextStartTime := 0, scheduledSources := [],
                      isSpeaking := false },
        messages := [], mode := .idle, error := none, volume := 0,
        isConnected := false }).1.isConnected = false :=
  (c8_device_unavailable { apiKey := some "k", micAvailable := false }
    { refs := { processor := false, inputSource := false, stream := false,
                inputContext := false, outputContext := false,
                session := false },
      playback := { nextStartTime := 0, scheduledSources := [],
                    isSpeaking := false },
      messages := [], mode := .idle, error := none, volume := 0,
      isConnected := false } (by decide) rfl).1

/-- C9: when one server message carries both an input-side and an
output-side transcription fragment, the update equals the update for the
input fragment alone — the output fragment of that message is discarded,
because the input branch returns from the updater before the output
branch is reached. -/
theorem c9_input_shadows_output (now : Nat) (i : String) (o : Option String)
    (msgs : List ChatMessage) (hi : i ≠ "") :
    handleTranscription now (some i) o msgs
      = handleTranscription now (some i) none msgs := by
  have hi2 : (i == "") = false := by simp [hi]
  simp [handleTranscription, strTruthy, hi2]

/-- Witness for C9: a message carrying both fragments against an empty
log applies only the user fragment. -/
theorem c9_input_shadows_output_witness :
    handleTranscription 1 (some "Hi") (some "Hello!") []
      = handleTranscription 1 (some "Hi") none [] :=
  c9_input_shadows_output 1 "Hi" (some "Hello!") [] (by decide)

/-- C10: every inbound audio payload sets the speaking flag true before
decoding is attempted; a failed decode schedules nothing and leaves the
in-flight set unchanged, so with zero segments in flight the flag stays
true with the set still empty (no completion callback exists to clear
it), until stopPlayback, disconnect, or the completion of a later
successful segment that empties the set resets it to false. -/
theorem c10_speaking_sticky :
    (∀ (ev : AudioEvent) (st : PlaybackState),
      (handleAudio ev st).1.isSpeaking = true)
    ∧ (∀ (ev : AudioEvent) (st : PlaybackState), ev.bytes.length % 2 = 1 →
      (handleAudio ev st).2 = none
      ∧ (handleAudio ev st).1.scheduledSources = st.scheduledSources)
    ∧ (∀ (ev : AudioEvent) (st : PlaybackState), ev.bytes.length % 2 = 1 →
      st.scheduledSources = [] →
      (handleAudio ev st).1.isSpeaking = true
      ∧ (handleAudio ev st).1.scheduledSources = [])
    ∧ (∀ st : PlaybackState, (stopPlayback st).isSpeaking = false)
    ∧ (∀ s : SessionState, (disconnect s).1.playback.isSpeaking = false)
    ∧ (∀ (src : AudioSource) (st : PlaybackState),
      st.scheduledSources = [src] →
      (handleSourceEnded src.sid st).isSpeaking = false) := by
  have hspeak : ∀ (ev : AudioEvent) (st : PlaybackState),
      (handleAudio ev st).1.isSpeaking = true := by
    intro ev st
    rcases Nat.mod_two_eq_zero_or_one ev.bytes.length with h | h
    · simp only [handleAudio, decodeAudioData_even ev.bytes 24000 h]
      split <;> rfl
    · rw [(handleAudio_odd ev st h).1]
  refine ⟨hspeak, ?_, ?_, ?_, ?_, ?_⟩
  · intro ev st h
    exact ⟨(handleAudio_odd ev st h).2, by rw [(handleAudio_odd ev st h).1]⟩
  · intro ev st h hempty
    refine ⟨hspeak ev st, ?_⟩
    rw [(handleAudio_odd ev st h).1]
    exact hempty
  · intro st
    rfl
  · intro s
    simp [disconnect, stopPlayback]
  · intro src st h
    simp [handleSourceEnded, h]

/-- Witness for C10: a malformed single-byte payload against an idle
empty scheduler leaves the speaking flag raised with nothing in flight. -/
theorem c10_speaking_sticky_witness :
    (handleAudio { now := 0, bytes := [7], sid := 0 }
      { nextStartTime := 0, scheduledSources := [],
        isSpeaking := false }).1.isSpeaking = true
    ∧ (handleAudio { now := 0, bytes := [7], sid := 0 }
        { nextStartTime := 0, scheduledSources := [],
          isSpeaking := false }).1.scheduledSources = [] :=
  c10_speaking_sticky.2.2.1 { now := 0, bytes := [7], sid := 0 }
    { nextStartTime := 0, scheduledSources := [], isSpeaking := false }
    (by decide) rfl

end LiveSession
